import Mathlib

/-!
Verification of the starknet node core of this repository:
the chain provider / protocol normalizer (`src/starknet/src/provider.rs`)
and the server orchestrator (`src/starknet/src/server/mod.rs`).

Backend byte values are embedded as `Nat` (each byte `< 256`); field
elements are embedded by their numeric value.  Fallible conversions
return `Except`.  The asynchronous `get_block` is embedded as a pure
function of the query id and the backend's reply; the server's `start`
is embedded as a function of the outcomes of its awaited steps that
also records the ordered trace of lifecycle events.
-/

/-- The Stark field modulus `2^251 + 17 * 2^192 + 1`; values of the
dependency type `FieldElement` are the naturals below it. -/
def starkPrime : Nat := 2 ^ 251 + 17 * 2 ^ 192 + 1

/-- Error of the dependency conversion `FieldElement::from_bytes_be`
(also the error type of `TryFrom<&BlockId>` in `provider.rs`). -/
inductive FromByteArrayError
  | mk
deriving DecidableEq

/-- Big-endian value of a byte sequence. -/
def beBytesToNat (bytes : List Nat) : Nat :=
  bytes.foldl (fun acc b => acc * 256 + b) 0

/-- The dependency function `FieldElement::from_bytes_be`: parses a
32-byte big-endian buffer, rejecting values not below `starkPrime`. -/
def fromBytesBe (buf : List Nat) : Except FromByteArrayError Nat :=
  let v := beBytesToNat buf
  if v < starkPrime then .ok v else .error .mk

/-- `impl TryFrom<TransactionHash> for FieldElement`
(`provider.rs` lines 818-830): rejects inputs longer than 32 bytes,
otherwise copies the input into the FIRST `len` bytes of a 32-byte
zero buffer (`buf[..hash_len].copy_from_slice(value.0)`) and parses
the buffer big-endian. -/
def transactionHashToFelt (bytes : List Nat) : Except FromByteArrayError Nat :=
  if 32 < bytes.length then .error .mk
  else fromBytesBe (bytes ++ List.replicate (32 - bytes.length) 0)

/-- `enum BlockId` (`provider.rs` lines 14-20).  The hash payload is
embedded by its field-element value. -/
inductive BlockId
  | latest
  | pending
  | hash (h : Nat)
  | number (n : Nat)
deriving DecidableEq

/-- `BlockId::is_pending` (`provider.rs` lines 196-200). -/
def BlockId.isPending : BlockId → Bool
  | .pending => true
  | _ => false

/-- Backend block status `jsonrpc::models::BlockStatus`. -/
inductive JBlockStatus
  | pending
  | acceptedOnL2
  | acceptedOnL1
  | rejected
deriving DecidableEq

/-- Canonical wire block status `v1alpha2::BlockStatus` (the variants
produced by the normalizer). -/
inductive V1BlockStatus
  | pending
  | acceptedOnL2
  | acceptedOnL1
  | rejected
deriving DecidableEq

/-- `ToProto<v1alpha2::BlockStatus> for models::BlockStatus`
(`provider.rs` lines 290-301). -/
def JBlockStatus.toProto : JBlockStatus → V1BlockStatus
  | .pending => .pending
  | .acceptedOnL2 => .acceptedOnL2
  | .acceptedOnL1 => .acceptedOnL1
  | .rejected => .rejected

/-- Backend `jsonrpc::models::InvokeTransactionV0`. -/
structure InvokeTransactionV0 where
  transaction_hash : Nat
  max_fee : Nat
  signature : List Nat
  nonce : Nat
  contract_address : Nat
  entry_point_selector : Nat
  calldata : List Nat
deriving DecidableEq

/-- Backend `jsonrpc::models::InvokeTransactionV1`. -/
structure InvokeTransactionV1 where
  transaction_hash : Nat
  max_fee : Nat
  signature : List Nat
  nonce : Nat
  sender_address : Nat
  calldata : List Nat
deriving DecidableEq

/-- Backend `jsonrpc::models::InvokeTransaction`. -/
inductive InvokeTransaction
  | v0 (t : InvokeTransactionV0)
  | v1 (t : InvokeTransactionV1)
deriving DecidableEq

/-- Backend `jsonrpc::models::DeployTransaction`. -/
structure DeployTransaction where
  transaction_hash : Nat
  version : Nat
  class_hash : Nat
  contract_address_salt : Nat
  constructor_calldata : List Nat
deriving DecidableEq

/-- Backend `jsonrpc::models::DeclareTransaction`. -/
structure DeclareTransaction where
  transaction_hash : Nat
  max_fee : Nat
  signature : List Nat
  nonce : Nat
  version : Nat
  class_hash : Nat
  sender_address : Nat
deriving DecidableEq

/-- Backend `jsonrpc::models::L1HandlerTransaction`. -/
structure L1HandlerTransaction where
  transaction_hash : Nat
  version : Nat
  contract_address : Nat
  entry_point_selector : Nat
  calldata : List Nat
deriving DecidableEq

/-- Backend `jsonrpc::models::DeployAccountTransaction`. -/
structure DeployAccountTransaction where
  transaction_hash : Nat
  max_fee : Nat
  signature : List Nat
  nonce : Nat
  version : Nat
  contract_address_salt : Nat
  class_hash : Nat
  constructor_calldata : List Nat
deriving DecidableEq

/-- Backend `jsonrpc::models::Transaction`. -/
inductive JTransaction
  | invoke (t : InvokeTransaction)
  | deploy (t : DeployTransaction)
  | declare (t : DeclareTransaction)
  | l1Handler (t : L1HandlerTransaction)
  | deployAccount (t : DeployAccountTransaction)
deriving DecidableEq

/-- Canonical wire `v1alpha2::TransactionMeta`. -/
structure TransactionMeta where
  hash : Option Nat
  max_fee : Option Nat
  signature : List Nat
  nonce : Option Nat
  version : Nat
deriving DecidableEq

/-- `v1alpha2::TransactionMeta::default()`: every field takes its
proto default (absent options, empty list, zero version). -/
def TransactionMeta.protoDefault : TransactionMeta :=
  { hash := none, max_fee := none, signature := [], nonce := none, version := 0 }

/-- Canonical wire `v1alpha2::InvokeTransactionV0`. -/
structure V1InvokeV0 where
  contract_address : Option Nat
  entry_point_selector : Option Nat
  calldata : List Nat
deriving DecidableEq

/-- Canonical wire `v1alpha2::InvokeTransactionV1`. -/
structure V1InvokeV1 where
  sender_address : Option Nat
  calldata : List Nat
deriving DecidableEq

/-- Canonical wire `v1alpha2::DeployTransaction`. -/
structure V1Deploy where
  class_hash : Option Nat
  contract_address_salt : Option Nat
  constructor_calldata : List Nat
deriving DecidableEq

/-- Canonical wire `v1alpha2::DeclareTransaction`. -/
structure V1Declare where
  class_hash : Option Nat
  sender_address : Option Nat
deriving DecidableEq

/-- Canonical wire `v1alpha2::L1HandlerTransaction`. -/
structure V1L1Handler where
  contract_address : Option Nat
  entry_point_selector : Option Nat
  calldata : List Nat
deriving DecidableEq

/-- Canonical wire `v1alpha2::DeployAccountTransaction`. -/
structure V1DeployAccount where
  contract_address_salt : Option Nat
  class_hash : Option Nat
  constructor_calldata : List Nat
deriving DecidableEq

/-- Canonical wire `v1alpha2::transaction::Transaction` (the oneof). -/
inductive V1TransactionKind
  | invokeV0 (t : V1InvokeV0)
  | invokeV1 (t : V1InvokeV1)
  | deploy (t : V1Deploy)
  | declare (t : V1Declare)
  | l1Handler (t : V1L1Handler)
  | deployAccount (t : V1DeployAccount)
deriving DecidableEq

/-- Canonical wire `v1alpha2::Transaction`. -/
structure V1Transaction where
  meta : Option TransactionMeta
  transaction : Option V1TransactionKind
deriving DecidableEq

/-- `ToProto<v1alpha2::Transaction> for InvokeTransactionV0`
(`provider.rs` lines 328-360); note the hard-coded `version: 0`. -/
def InvokeTransactionV0.toProto (t : InvokeTransactionV0) : V1Transaction :=
  { meta := some { hash := some t.transaction_hash, max_fee := some t.max_fee,
                   signature := t.signature, nonce := some t.nonce, version := 0 },
    transaction := some (.invokeV0 { contract_address := some t.contract_address,
                                     entry_point_selector := some t.entry_point_selector,
                                     calldata := t.calldata }) }

/-- `ToProto<v1alpha2::Transaction> for InvokeTransactionV1`
(`provider.rs` lines 362-391); note the hard-coded `version: 0`. -/
def InvokeTransactionV1.toProto (t : InvokeTransactionV1) : V1Transaction :=
  { meta := some { hash := some t.transaction_hash, max_fee := some t.max_fee,
                   signature := t.signature, nonce := some t.nonce, version := 0 },
    transaction := some (.invokeV1 { sender_address := some t.sender_address,
                                     calldata := t.calldata }) }

/-- `ToProto<v1alpha2::Transaction> for InvokeTransaction`
(`provider.rs` lines 317-326). -/
def InvokeTransaction.toProto : InvokeTransaction → V1Transaction
  | .v0 t => t.toProto
  | .v1 t => t.toProto

/-- `ToProto<v1alpha2::Transaction> for DeployTransaction`
(`provider.rs` lines 393-424): meta takes the proto defaults except
the hash and the preserved version. -/
def DeployTransaction.toProto (t : DeployTransaction) : V1Transaction :=
  { meta := some { TransactionMeta.protoDefault with
                   hash := some t.transaction_hash, version := t.version },
    transaction := some (.deploy { class_hash := some t.class_hash,
                                   contract_address_salt := some t.contract_address_salt,
                                   constructor_calldata := t.constructor_calldata }) }

/-- `ToProto<v1alpha2::Transaction> for DeclareTransaction`
(`provider.rs` lines 426-457). -/
def DeclareTransaction.toProto (t : DeclareTransaction) : V1Transaction :=
  { meta := some { hash := some t.transaction_hash, max_fee := some t.max_fee,
                   signature := t.signature, nonce := some t.nonce, version := t.version },
    transaction := some (.declare { class_hash := some t.class_hash,
                                    sender_address := some t.sender_address }) }

/-- `ToProto<v1alpha2::Transaction> for L1HandlerTransaction`
(`provider.rs` lines 459-487): meta takes the proto defaults except
the hash and the preserved version. -/
def L1HandlerTransaction.toProto (t : L1HandlerTransaction) : V1Transaction :=
  { meta := some { TransactionMeta.protoDefault with
                   hash := some t.transaction_hash, version := t.version },
    transaction := some (.l1Handler { contract_address := some t.contract_address,
                                      entry_point_selector := some t.entry_point_selector,
                                      calldata := t.calldata }) }

/-- `ToProto<v1alpha2::Transaction> for DeployAccountTransaction`
(`provider.rs` lines 489-526). -/
def DeployAccountTransaction.toProto (t : DeployAccountTransaction) : V1Transaction :=
  { meta := some { hash := some t.transaction_hash, max_fee := some t.max_fee,
                   signature := t.signature, nonce := some t.nonce, version := t.version },
    transaction := some (.deployAccount { contract_address_salt := some t.contract_address_salt,
                                          class_hash := some t.class_hash,
                                          constructor_calldata := t.constructor_calldata }) }

/-- `ToProto<v1alpha2::Transaction> for models::Transaction`
(`provider.rs` lines 303-315). -/
def JTransaction.toProto : JTransaction → V1Transaction
  | .invoke t => t.toProto
  | .deploy t => t.toProto
  | .declare t => t.toProto
  | .l1Handler t => t.toProto
  | .deployAccount t => t.toProto

/-- Backend `jsonrpc::models::BlockWithTxs` (the confirmed shape). -/
structure BlockWithTxs where
  status : JBlockStatus
  block_hash : Nat
  parent_hash : Nat
  block_number : Nat
  new_root : Nat
  timestamp : Nat
  sequencer_address : Nat
  transactions : List JTransaction
deriving DecidableEq

/-- Backend `jsonrpc::models::PendingBlockWithTxs`. -/
structure PendingBlockWithTxs where
  transactions : List JTransaction
  timestamp : Nat
  sequencer_address : Nat
  parent_hash : Nat
deriving DecidableEq

/-- `pbjson_types::Timestamp`. -/
structure Timestamp where
  seconds : Int
  nanos : Int
deriving DecidableEq

/-- Canonical wire `v1alpha2::BlockHeader`. -/
structure BlockHeader where
  block_hash : Option Nat
  parent_block_hash : Option Nat
  block_number : Nat
  sequencer_address : Option Nat
  new_root : Option Nat
  timestamp : Option Timestamp
deriving DecidableEq

/-- `db::BlockBody`. -/
structure BlockBody where
  transactions : List V1Transaction
deriving DecidableEq

/-- `u64::MAX`, the pending block-number sentinel. -/
def u64Max : Nat := 2 ^ 64 - 1

/-- The Rust cast `u64 as i64` (two's-complement reinterpretation),
applied to block timestamps. -/
def u64AsI64 (n : Nat) : Int :=
  if n < 2 ^ 63 then (n : Int) else (n : Int) - 2 ^ 64

/-- `ToProto<v1alpha2::BlockStatus> for BlockWithTxs`
(`provider.rs` lines 220-224). -/
def BlockWithTxs.statusToProto (b : BlockWithTxs) : V1BlockStatus :=
  b.status.toProto

/-- `ToProto<v1alpha2::BlockHeader> for BlockWithTxs`
(`provider.rs` lines 232-253). -/
def BlockWithTxs.headerToProto (b : BlockWithTxs) : BlockHeader :=
  { block_hash := some b.block_hash,
    parent_block_hash := some b.parent_hash,
    block_number := b.block_number,
    sequencer_address := some b.sequencer_address,
    new_root := some b.new_root,
    timestamp := some { seconds := u64AsI64 b.timestamp, nanos := 0 } }

/-- `ToProto<BlockBody> for BlockWithTxs` (`provider.rs` lines 276-281). -/
def BlockWithTxs.bodyToProto (b : BlockWithTxs) : BlockBody :=
  { transactions := b.transactions.map JTransaction.toProto }

/-- `ToProto<v1alpha2::BlockStatus> for PendingBlockWithTxs`
(`provider.rs` lines 226-230): always `Pending`. -/
def PendingBlockWithTxs.statusToProto (_ : PendingBlockWithTxs) : V1BlockStatus :=
  .pending

/-- `ToProto<v1alpha2::BlockHeader> for PendingBlockWithTxs`
(`provider.rs` lines 255-274): zero block hash, `u64::MAX` block
number, absent new root; parent hash, sequencer and timestamp from
the backend response. -/
def PendingBlockWithTxs.headerToProto (b : PendingBlockWithTxs) : BlockHeader :=
  { block_hash := some 0,
    parent_block_hash := some b.parent_hash,
    block_number := u64Max,
    sequencer_address := some b.sequencer_address,
    new_root := none,
    timestamp := some { seconds := u64AsI64 b.timestamp, nanos := 0 } }

/-- `ToProto<BlockBody> for PendingBlockWithTxs`
(`provider.rs` lines 283-288). -/
def PendingBlockWithTxs.bodyToProto (b : PendingBlockWithTxs) : BlockBody :=
  { transactions := b.transactions.map JTransaction.toProto }

/-- Dependency `jsonrpc::models::ErrorCode` (the JSON-RPC error codes
of the backend; `BlockNotFound` is the one the provider singles out). -/
inductive ErrorCode
  | failedToReceiveTransaction
  | contractNotFound
  | invalidMessageSelector
  | invalidCallData
  | blockNotFound
  | transactionHashNotFound
  | pageSizeTooBig
  | noBlocks
  | invalidContinuationToken
  | contractError
deriving DecidableEq

/-- Dependency `jsonrpc::RpcError`. -/
inductive RpcError
  | code (c : ErrorCode)
  | unknown (code : Int) (message : String)
deriving DecidableEq

/-- Dependency `jsonrpc::JsonRpcClientError` (json parse error,
transport error, or an RPC-level error). -/
inductive JsonRpcClientError
  | jsonError
  | transportError
  | rpcError (e : RpcError)
deriving DecidableEq

/-- `enum HttpProviderError` (`provider.rs` lines 54-72).  The
`Provider` variant boxes the underlying backend error. -/
inductive HttpProviderError
  | blockNotFound
  | configuration
  | url
  | provider (e : JsonRpcClientError)
  | unexpectedPendingBlock
  | expectedPendingBlock
  | invalidBlockId (e : FromByteArrayError)
  | invalidBlockHash
deriving DecidableEq

/-- `ProviderError::is_block_not_found for HttpProviderError`
(`provider.rs` lines 82-86). -/
def HttpProviderError.isBlockNotFound : HttpProviderError → Bool
  | .blockNotFound => true
  | _ => false

/-- `HttpProviderError::from_provider_error` (`provider.rs` lines
88-100): only the `BlockNotFound` RPC code maps to the dedicated
variant, everything else is wrapped opaquely. -/
def HttpProviderError.fromProviderError : JsonRpcClientError → HttpProviderError
  | .rpcError (.code .blockNotFound) => .blockNotFound
  | e => .provider e

/-- Backend `jsonrpc::models::MaybePendingBlockWithTxs`. -/
inductive MaybePendingBlockWithTxs
  | block (b : BlockWithTxs)
  | pendingBlock (b : PendingBlockWithTxs)
deriving DecidableEq

/-- `HttpProvider::get_block` (`provider.rs` lines 132-164), as a
function of the query id and the backend's reply to
`get_block_with_txs`: a confirmed-shaped reply to a pending query
fails with `UnexpectedPendingBlock`, a pending-shaped reply to a
non-pending query fails with `ExpectedPendingBlock`, otherwise the
status, header and body normalizations are returned. -/
def getBlock (id : BlockId)
    (backend : Except JsonRpcClientError MaybePendingBlockWithTxs) :
    Except HttpProviderError (V1BlockStatus × BlockHeader × BlockBody) :=
  match backend with
  | .error e => .error (HttpProviderError.fromProviderError e)
  | .ok (.block b) =>
      if id.isPending then .error .unexpectedPendingBlock
      else .ok (b.statusToProto, b.headerToProto, b.bodyToProto)
  | .ok (.pendingBlock b) =>
      if !id.isPending then .error .expectedPendingBlock
      else .ok (b.statusToProto, b.headerToProto, b.bodyToProto)

/-- Backend `jsonrpc::models::MsgToL1`. -/
structure MsgToL1 where
  to_address : Nat
  payload : List Nat
deriving DecidableEq

/-- Backend `jsonrpc::models::Event`. -/
structure JEvent where
  from_address : Nat
  keys : List Nat
  data : List Nat
deriving DecidableEq

/-- Canonical wire `v1alpha2::L2ToL1Message`. -/
structure L2ToL1Message where
  to_address : Option Nat
  payload : List Nat
deriving DecidableEq

/-- Canonical wire `v1alpha2::Event`. -/
structure V1Event where
  from_address : Option Nat
  keys : List Nat
  data : List Nat
deriving DecidableEq

/-- `ToProto<v1alpha2::L2ToL1Message> for MsgToL1`
(`provider.rs` lines 792-802). -/
def MsgToL1.toProto (m : MsgToL1) : L2ToL1Message :=
  { to_address := some m.to_address, payload := m.payload }

/-- `ToProto<v1alpha2::Event> for models::Event`
(`provider.rs` lines 804-816). -/
def JEvent.toProto (e : JEvent) : V1Event :=
  { from_address := some e.from_address, keys := e.keys, data := e.data }

/-- Canonical wire `v1alpha2::TransactionReceipt`. -/
structure V1TransactionReceipt where
  transaction_index : Nat
  transaction_hash : Option Nat
  actual_fee : Option Nat
  l2_to_l1_messages : List L2ToL1Message
  events : List V1Event
  contract_address : Option Nat
deriving DecidableEq

/-- Backend `jsonrpc::models::PendingInvokeTransactionReceipt`. -/
structure PendingInvokeTransactionReceipt where
  transaction_hash : Nat
  actual_fee : Nat
  messages_sent : List MsgToL1
  events : List JEvent
deriving DecidableEq

/-- Backend `jsonrpc::models::PendingL1HandlerTransactionReceipt`. -/
structure PendingL1HandlerTransactionReceipt where
  transaction_hash : Nat
  actual_fee : Nat
  messages_sent : List MsgToL1
  events : List JEvent
deriving DecidableEq

/-- Backend `jsonrpc::models::PendingDeclareTransactionReceipt`. -/
structure PendingDeclareTransactionReceipt where
  transaction_hash : Nat
  actual_fee : Nat
  messages_sent : List MsgToL1
  events : List JEvent
deriving DecidableEq

/-- Backend `jsonrpc::models::PendingDeployTransactionReceipt`; this
pending shape does carry the deployed contract address. -/
structure PendingDeployTransactionReceipt where
  transaction_hash : Nat
  actual_fee : Nat
  messages_sent : List MsgToL1
  events : List JEvent
  contract_address : Nat
deriving DecidableEq

/-- Backend `jsonrpc::models::PendingDeployAccountTransactionReceipt`;
this pending shape carries no contract address (the mapping in
`provider.rs` lines 642-664 reads none and emits `None`). -/
structure PendingDeployAccountTransactionReceipt where
  transaction_hash : Nat
  actual_fee : Nat
  messages_sent : List MsgToL1
  events : List JEvent
deriving DecidableEq

/-- Backend `jsonrpc::models::InvokeTransactionReceipt` (confirmed). -/
structure InvokeTransactionReceipt where
  transaction_hash : Nat
  actual_fee : Nat
  block_hash : Nat
  block_number : Nat
  messages_sent : List MsgToL1
  events : List JEvent
deriving DecidableEq

/-- Backend `jsonrpc::models::L1HandlerTransactionReceipt` (confirmed). -/
structure L1HandlerTransactionReceipt where
  transaction_hash : Nat
  actual_fee : Nat
  block_hash : Nat
  block_number : Nat
  messages_sent : List MsgToL1
  events : List JEvent
deriving DecidableEq

/-- Backend `jsonrpc::models::DeclareTransactionReceipt` (confirmed). -/
structure DeclareTransactionReceipt where
  transaction_hash : Nat
  actual_fee : Nat
  block_hash : Nat
  block_number : Nat
  messages_sent : List MsgToL1
  events : List JEvent
deriving DecidableEq

/-- Backend `jsonrpc::models::DeployTransactionReceipt` (confirmed). -/
structure DeployTransactionReceipt where
  transaction_hash : Nat
  actual_fee : Nat
  block_hash : Nat
  block_number : Nat
  messages_sent : List MsgToL1
  events : List JEvent
  contract_address : Nat
deriving DecidableEq

/-- Backend `jsonrpc::models::DeployAccountTransactionReceipt` (confirmed). -/
structure DeployAccountTransactionReceipt where
  transaction_hash : Nat
  actual_fee : Nat
  block_hash : Nat
  block_number : Nat
  messages_sent : List MsgToL1
  events : List JEvent
  contract_address : Nat
deriving DecidableEq

/-- `ToProto<v1alpha2::TransactionReceipt> for
PendingInvokeTransactionReceipt` (`provider.rs` lines 553-573). -/
def PendingInvokeTransactionReceipt.toProto
    (r : PendingInvokeTransactionReceipt) : V1TransactionReceipt :=
  { transaction_index := 0,
    transaction_hash := some r.transaction_hash,
    actual_fee := some r.actual_fee,
    l2_to_l1_messages := r.messages_sent.map MsgToL1.toProto,
    events := r.events.map JEvent.toProto,
    contract_address := none }

/-- `ToProto<v1alpha2::TransactionReceipt> for
PendingL1HandlerTransactionReceipt` (`provider.rs` lines 575-595). -/
def PendingL1HandlerTransactionReceipt.toProto
    (r : PendingL1HandlerTransactionReceipt) : V1TransactionReceipt :=
  { transaction_index := 0,
    transaction_hash := some r.transaction_hash,
    actual_fee := some r.actual_fee,
    l2_to_l1_messages := r.messages_sent.map MsgToL1.toProto,
    events := r.events.map JEvent.toProto,
    contract_address := none }

/-- `ToProto<v1alpha2::TransactionReceipt> for
PendingDeclareTransactionReceipt` (`provider.rs` lines 597-617). -/
def PendingDeclareTransactionReceipt.toProto
    (r : PendingDeclareTransactionReceipt) : V1TransactionReceipt :=
  { transaction_index := 0,
    transaction_hash := some r.transaction_hash,
    actual_fee := some r.actual_fee,
    l2_to_l1_messages := r.messages_sent.map MsgToL1.toProto,
    events := r.events.map JEvent.toProto,
    contract_address := none }

/-- `ToProto<v1alpha2::TransactionReceipt> for
PendingDeployTransactionReceipt` (`provider.rs` lines 619-640):
populates the contract address. -/
def PendingDeployTransactionReceipt.toProto
    (r : PendingDeployTransactionReceipt) : V1TransactionReceipt :=
  { transaction_index := 0,
    transaction_hash := some r.transaction_hash,
    actual_fee := some r.actual_fee,
    l2_to_l1_messages := r.messages_sent.map MsgToL1.toProto,
    events := r.events.map JEvent.toProto,
    contract_address := some r.contract_address }

/-- `ToProto<v1alpha2::TransactionReceipt> for
PendingDeployAccountTransactionReceipt` (`provider.rs` lines 642-664):
emits an ABSENT contract address. -/
def PendingDeployAccountTransactionReceipt.toProto
    (r : PendingDeployAccountTransactionReceipt) : V1TransactionReceipt :=
  { transaction_index := 0,
    transaction_hash := some r.transaction_hash,
    actual_fee := some r.actual_fee,
    l2_to_l1_messages := r.messages_sent.map MsgToL1.toProto,
    events := r.events.map JEvent.toProto,
    contract_address := none }

/-- `ToProto<v1alpha2::TransactionReceipt> for
InvokeTransactionReceipt` (`provider.rs` lines 680-700). -/
def InvokeTransactionReceipt.toProto
    (r : InvokeTransactionReceipt) : V1TransactionReceipt :=
  { transaction_index := 0,
    transaction_hash := some r.transaction_hash,
    actual_fee := some r.actual_fee,
    l2_to_l1_messages := r.messages_sent.map MsgToL1.toProto,
    events := r.events.map JEvent.toProto,
    contract_address := none }

/-- `ToProto<v1alpha2::TransactionReceipt> for
L1HandlerTransactionReceipt` (`provider.rs` lines 702-722). -/
def L1HandlerTransactionReceipt.toProto
    (r : L1HandlerTransactionReceipt) : V1TransactionReceipt :=
  { transaction_index := 0,
    transaction_hash := some r.transaction_hash,
    actual_fee := some r.actual_fee,
    l2_to_l1_messages := r.messages_sent.map MsgToL1.toProto,
    events := r.events.map JEvent.toProto,
    contract_address := none }

/-- `ToProto<v1alpha2::TransactionReceipt> for
DeclareTransactionReceipt` (`provider.rs` lines 724-744). -/
def DeclareTransactionReceipt.toProto
    (r : DeclareTransactionReceipt) : V1TransactionReceipt :=
  { transaction_index := 0,
    transaction_hash := some r.transaction_hash,
    actual_fee := some r.actual_fee,
    l2_to_l1_messages := r.messages_sent.map MsgToL1.toProto,
    events := r.events.map JEvent.toProto,
    contract_address := none }

/-- `ToProto<v1alpha2::TransactionReceipt> for
DeployTransactionReceipt` (`provider.rs` lines 746-767):
populates the contract address. -/
def DeployTransactionReceipt.toProto
    (r : DeployTransactionReceipt) : V1TransactionReceipt :=
  { transaction_index := 0,
    transaction_hash := some r.transaction_hash,
    actual_fee := some r.actual_fee,
    l2_to_l1_messages := r.messages_sent.map MsgToL1.toProto,
    events := r.events.map JEvent.toProto,
    contract_address := some r.contract_address }

/-- `ToProto<v1alpha2::TransactionReceipt> for
DeployAccountTransactionReceipt` (`provider.rs` lines 769-790):
populates the contract address. -/
def DeployAccountTransactionReceipt.toProto
    (r : DeployAccountTransactionReceipt) : V1TransactionReceipt :=
  { transaction_index := 0,
    transaction_hash := some r.transaction_hash,
    actual_fee := some r.actual_fee,
    l2_to_l1_messages := r.messages_sent.map MsgToL1.toProto,
    events := r.events.map JEvent.toProto,
    contract_address := some r.contract_address }

/-- Backend `jsonrpc::models::PendingTransactionReceipt`. -/
inductive PendingTransactionReceipt
  | invoke (r : PendingInvokeTransactionReceipt)
  | l1Handler (r : PendingL1HandlerTransactionReceipt)
  | declare (r : PendingDeclareTransactionReceipt)
  | deploy (r : PendingDeployTransactionReceipt)
  | deployAccount (r : PendingDeployAccountTransactionReceipt)
deriving DecidableEq

/-- Backend `jsonrpc::models::TransactionReceipt` (confirmed). -/
inductive JTransactionReceipt
  | invoke (r : InvokeTransactionReceipt)
  | l1Handler (r : L1HandlerTransactionReceipt)
  | declare (r : DeclareTransactionReceipt)
  | deploy (r : DeployTransactionReceipt)
  | deployAccount (r : DeployAccountTransactionReceipt)
deriving DecidableEq

/-- `ToProto<v1alpha2::TransactionReceipt> for
PendingTransactionReceipt` (`provider.rs` lines 539-551). -/
def PendingTransactionReceipt.toProto : PendingTransactionReceipt → V1TransactionReceipt
  | .invoke r => r.toProto
  | .l1Handler r => r.toProto
  | .declare r => r.toProto
  | .deploy r => r.toProto
  | .deployAccount r => r.toProto

/-- `ToProto<v1alpha2::TransactionReceipt> for models::TransactionReceipt`
(`provider.rs` lines 666-678). -/
def JTransactionReceipt.toProto : JTransactionReceipt → V1TransactionReceipt
  | .invoke r => r.toProto
  | .l1Handler r => r.toProto
  | .declare r => r.toProto
  | .deploy r => r.toProto
  | .deployAccount r => r.toProto

/-- Backend `jsonrpc::models::MaybePendingTransactionReceipt`. -/
inductive MaybePendingTransactionReceipt
  | pendingReceipt (r : PendingTransactionReceipt)
  | receipt (r : JTransactionReceipt)
deriving DecidableEq

/-- `ToProto<v1alpha2::TransactionReceipt> for
MaybePendingTransactionReceipt` (`provider.rs` lines 528-537). -/
def MaybePendingTransactionReceipt.toProto :
    MaybePendingTransactionReceipt → V1TransactionReceipt
  | .pendingReceipt r => r.toProto
  | .receipt r => r.toProto

/-- Dependency `tonic::transport::Error` (opaque). -/
inductive TonicTransportError
  | mk
deriving DecidableEq

/-- Dependency `tokio::task::JoinError` (opaque). -/
inductive JoinError
  | mk
deriving DecidableEq

/-- Dependency `tonic_reflection::server::Error` (opaque). -/
inductive ReflectionBuildError
  | mk
deriving DecidableEq

/-- `enum ServerError` (`server/mod.rs` lines 32-40). -/
inductive ServerError
  | transport (e : TonicTransportError)
  | task (e : JoinError)
  | reflectionServer (e : ReflectionBuildError)
deriving DecidableEq

/-- Observable lifecycle events of `Server::start`, in the order the
orchestrator performs them. -/
inductive ServerEvent
  | reporterSpawned
  | reflectionBuilt
  | serveStopped
  | cancelIssued
  | reporterJoined
deriving DecidableEq

/-- Outcomes of the external steps `Server::start` awaits: the
reflection-service build, the listener running until the cancellation
signal (`serve_with_shutdown`), and the health-reporter task join. -/
structure StartEnv where
  reflectionBuild : Except ReflectionBuildError Unit
  serveWithShutdown : Except TonicTransportError Unit
  reporterJoin : Except JoinError Unit

/-- `Server::start` (`server/mod.rs` lines 73-108), embedded as the
sequence of its awaited steps together with the ordered trace of
lifecycle events: spawn the health reporter, build the reflection
service (`?`), serve until shutdown (`?`), then cancel the token and
join the health reporter (`?`).  Each step's failure aborts with the
corresponding `ServerError` variant. -/
def serverStart (env : StartEnv) :
    Except ServerError Unit × List ServerEvent :=
  let tr0 := [ServerEvent.reporterSpawned]
  match env.reflectionBuild with
  | .error e => (.error (.reflectionServer e), tr0)
  | .ok _ =>
    let tr1 := tr0 ++ [ServerEvent.reflectionBuilt]
    match env.serveWithShutdown with
    | .error e => (.error (.transport e), tr1)
    | .ok _ =>
      let tr2 := tr1 ++ [ServerEvent.serveStopped, ServerEvent.cancelIssued]
      match env.reporterJoin with
      | .error e => (.error (.task e), tr2 ++ [ServerEvent.reporterJoined])
      | .ok _ => (.ok (), tr2 ++ [ServerEvent.reporterJoined])

/-- A confirmed backend block, status `AcceptedOnL2`, block number 100. -/
def c1Block : BlockWithTxs :=
  { status := .acceptedOnL2, block_hash := 1, parent_hash := 2, block_number := 100,
    new_root := 3, timestamp := 4, sequencer_address := 5, transactions := [] }

/-- A pending backend block. -/
def c1PendingBlock : PendingBlockWithTxs :=
  { transactions := [], timestamp := 4, sequencer_address := 5, parent_hash := 2 }

/-- A 20-byte input whose first byte is 255. -/
def c2TwentyByteInput : List Nat := 255 :: List.replicate 19 0

/-- A confirmed-SHAPED backend block whose status field is `Pending`. -/
def c3PendingStatusBlock : BlockWithTxs :=
  { status := .pending, block_hash := 7, parent_hash := 8, block_number := 100,
    new_root := 9, timestamp := 10, sequencer_address := 11, transactions := [] }

/-- A confirmed backend block with status `AcceptedOnL2`, for the witness. -/
def c3wBlock : BlockWithTxs :=
  { status := .acceptedOnL2, block_hash := 1, parent_hash := 2, block_number := 3,
    new_root := 4, timestamp := 5, sequencer_address := 6, transactions := [] }

/-- The triple `get_block` returns for `c3wBlock`. -/
def c3wTriple : V1BlockStatus × BlockHeader × BlockBody :=
  (c3wBlock.statusToProto, c3wBlock.headerToProto, c3wBlock.bodyToProto)

/-- A concrete pending backend block for the C4 witness. -/
def c4wPending : PendingBlockWithTxs :=
  { transactions := [], timestamp := 7, sequencer_address := 8, parent_hash := 9 }

/-- A concrete pending deploy-account receipt. -/
def c6PendingDeployAccount : PendingDeployAccountTransactionReceipt :=
  { transaction_hash := 1, actual_fee := 2, messages_sent := [], events := [] }

/-- The start environment in which every awaited step succeeds. -/
def c9AllOk : StartEnv :=
  { reflectionBuild := .ok (), serveWithShutdown := .ok (), reporterJoin := .ok () }

/-- Status mapping hits `Pending` exactly on the backend `Pending` status. -/
theorem JBlockStatus.toProto_pending_iff (s : JBlockStatus) :
    s.toProto = V1BlockStatus.pending ↔ s = JBlockStatus.pending := by
  cases s <;> decide

/-- Claim C1: a confirmed block returned for a `Pending` query does make
`get_block` fail without returning data, but with the
`UnexpectedPendingBlock` variant (whose own message reads "received
unexpected pending block"), not the `ExpectedPendingBlock` variant the
claim requires; symmetrically a pending block for a non-pending query
fails with `ExpectedPendingBlock` ("expected pending block, but received
non pending block") although a pending block is exactly what was
received.  The two mismatch variants are used swapped relative to the
code's own error messages. -/
theorem c1_pending_mismatch_error_swapped :
    getBlock BlockId.pending (.ok (.block c1Block))
      = .error HttpProviderError.unexpectedPendingBlock
    ∧ getBlock BlockId.latest (.ok (.pendingBlock c1PendingBlock))
      = .error HttpProviderError.expectedPendingBlock
    ∧ HttpProviderError.unexpectedPendingBlock ≠ HttpProviderError.expectedPendingBlock :=
  ⟨rfl, rfl, fun h => HttpProviderError.noConfusion h⟩

/-- Claim C2: the conversion copies the input into the FIRST bytes of the
32-byte buffer, so a short input is RIGHT-zero-padded, not left-padded as
the claim states: the 1-byte input `[1]` yields `2 ^ 248` instead of `1`,
and the 20-byte input `255, 0, ...` fails (its right-padded value
`255 * 2 ^ 248` exceeds the field modulus) although the claim says every
input of length at most 32 succeeds; the left-padded value demanded by
the claim, `255 * 2 ^ 152`, is a valid field element.  Only the
over-length rejection agrees with the claim. -/
theorem c2_hash_padding_eval :
    transactionHashToFelt [1] = .ok (2 ^ 248)
    ∧ transactionHashToFelt c2TwentyByteInput = .error .mk
    ∧ beBytesToNat (List.replicate 12 0 ++ c2TwentyByteInput) = 255 * 2 ^ 152
    ∧ 255 * 2 ^ 152 < starkPrime
    ∧ transactionHashToFelt (List.replicate 33 0) = .error .mk :=
  ⟨rfl, rfl, rfl, by decide, rfl⟩

/-- Claim C3 counterexample: `get_block` only checks the SHAPE of the
backend reply, not its status field, so a `Latest` query answered by a
confirmed-shaped block whose status field is `Pending` succeeds and
returns `Pending` status. -/
theorem c3_latest_query_returns_pending_status :
    (getBlock BlockId.latest (.ok (.block c3PendingStatusBlock))).map Prod.fst
      = .ok V1BlockStatus.pending := rfl

/-- Claim C3 (amended): a non-pending `get_block` call succeeds only on a
confirmed-shaped backend reply, and its returned status is the direct
mapping of the backend block's reported status; in particular the result
is `Pending` only when the backend itself reports status `Pending` inside
a confirmed-shaped block. -/
theorem c3_nonpending_status_matches_backend :
    ∀ (id : BlockId) (resp : MaybePendingBlockWithTxs)
      (r : V1BlockStatus × BlockHeader × BlockBody),
    id.isPending = false →
    getBlock id (.ok resp) = .ok r →
    ∃ b, resp = .block b ∧ r.1 = b.status.toProto
      ∧ (b.status ≠ JBlockStatus.pending → r.1 ≠ V1BlockStatus.pending) := by
  intro id resp r hid h
  cases resp with
  | block b =>
    have h1 : (if id.isPending then
          (Except.error HttpProviderError.unexpectedPendingBlock)
        else Except.ok (b.statusToProto, b.headerToProto, b.bodyToProto))
        = Except.ok r := h
    split at h1
    · exact Except.noConfusion h1
    · injection h1 with h2
      subst h2
      refine ⟨b, rfl, rfl, ?_⟩
      intro hs hp
      exact hs ((JBlockStatus.toProto_pending_iff b.status).mp hp)
  | pendingBlock b =>
    have h1 : (if !id.isPending then
          (Except.error HttpProviderError.expectedPendingBlock)
        else Except.ok (b.statusToProto, b.headerToProto, b.bodyToProto))
        = Except.ok r := h
    rw [hid] at h1
    exact Except.noConfusion h1

/-- Witness for the amended claim C3 at a concrete `Latest` query. -/
theorem c3_nonpending_status_matches_backend_witness :
    ∃ b, MaybePendingBlockWithTxs.block c3wBlock = .block b
      ∧ c3wTriple.1 = b.status.toProto
      ∧ (b.status ≠ JBlockStatus.pending → c3wTriple.1 ≠ V1BlockStatus.pending) :=
  c3_nonpending_status_matches_backend BlockId.latest (.block c3wBlock) c3wTriple rfl rfl

/-- Claim C4: every successful `Pending` query yields status `Pending`, a
zero block-hash sentinel, the `u64::MAX` block-number sentinel, an absent
new root, and parent hash, sequencer address and timestamp taken from the
backend's pending block. -/
theorem c4_pending_block_sentinels :
    ∀ (p : PendingBlockWithTxs) (st : V1BlockStatus) (hdr : BlockHeader) (body : BlockBody),
    getBlock BlockId.pending (.ok (.pendingBlock p)) = .ok (st, hdr, body) →
    st = V1BlockStatus.pending
    ∧ hdr.block_hash = some 0
    ∧ hdr.block_number = u64Max
    ∧ hdr.new_root = none
    ∧ hdr.parent_block_hash = some p.parent_hash
    ∧ hdr.sequencer_address = some p.sequencer_address
    ∧ hdr.timestamp = some { seconds := u64AsI64 p.timestamp, nanos := 0 } := by
  intro p st hdr body h
  have h0 : (Except.ok (p.statusToProto, p.headerToProto, p.bodyToProto) :
      Except HttpProviderError (V1BlockStatus × BlockHeader × BlockBody))
      = .ok (st, hdr, body) := h
  injection h0 with h1
  injection h1 with hst h2
  injection h2 with hhdr hbody
  subst hst
  subst hhdr
  exact ⟨rfl, rfl, rfl, rfl, rfl, rfl, rfl⟩

/-- Witness for claim C4 at a concrete pending block. -/
theorem c4_pending_block_sentinels_witness :
    c4wPending.statusToProto = V1BlockStatus.pending
    ∧ c4wPending.headerToProto.block_hash = some 0
    ∧ c4wPending.headerToProto.block_number = u64Max
    ∧ c4wPending.headerToProto.new_root = none
    ∧ c4wPending.headerToProto.parent_block_hash = some 9
    ∧ c4wPending.headerToProto.sequencer_address = some 8
    ∧ c4wPending.headerToProto.timestamp = some { seconds := u64AsI64 7, nanos := 0 } :=
  c4_pending_block_sentinels c4wPending c4wPending.statusToProto
    c4wPending.headerToProto c4wPending.bodyToProto rfl

/-- Claim C5: each of the five backend transaction kinds maps to a
`Transaction` whose `meta.hash` is the input's transaction hash and
whose kind-specific payload fields equal the corresponding input fields;
Deploy and L1Handler, which lack explicit fee, signature and nonce, take
the proto defaults (empty signature, absent max fee, absent nonce) while
their `meta.version` is preserved from the input. -/
theorem c5_transaction_mapping_fields :
    ∀ (i0 : InvokeTransactionV0) (i1 : InvokeTransactionV1) (d : DeployTransaction)
      (dc : DeclareTransaction) (lh : L1HandlerTransaction) (da : DeployAccountTransaction),
    (JTransaction.invoke (.v0 i0)).toProto
      = { meta := some { hash := some i0.transaction_hash, max_fee := some i0.max_fee,
                         signature := i0.signature, nonce := some i0.nonce, version := 0 },
          transaction := some (.invokeV0 { contract_address := some i0.contract_address,
                                           entry_point_selector := some i0.entry_point_selector,
                                           calldata := i0.calldata }) }
    ∧ (JTransaction.invoke (.v1 i1)).toProto
      = { meta := some { hash := some i1.transaction_hash, max_fee := some i1.max_fee,
                         signature := i1.signature, nonce := some i1.nonce, version := 0 },
          transaction := some (.invokeV1 { sender_address := some i1.sender_address,
                                           calldata := i1.calldata }) }
    ∧ (JTransaction.deploy d).toProto
      = { meta := some { hash := some d.transaction_hash, max_fee := none,
                         signature := [], nonce := none, version := d.version },
          transaction := some (.deploy { class_hash := some d.class_hash,
                                         contract_address_salt := some d.contract_address_salt,
                                         constructor_calldata := d.constructor_calldata }) }
    ∧ (JTransaction.declare dc).toProto
      = { meta := some { hash := some dc.transaction_hash, max_fee := some dc.max_fee,
                         signature := dc.signature, nonce := some dc.nonce,
                         version := dc.version },
          transaction := some (.declare { class_hash := some dc.class_hash,
                                          sender_address := some dc.sender_address }) }
    ∧ (JTransaction.l1Handler lh).toProto
      = { meta := some { hash := some lh.transaction_hash, max_fee := none,
                         signature := [], nonce := none, version := lh.version },
          transaction := some (.l1Handler { contract_address := some lh.contract_address,
                                            entry_point_selector := some lh.entry_point_selector,
                                            calldata := lh.calldata }) }
    ∧ (JTransaction.deployAccount da).toProto
      = { meta := some { hash := some da.transaction_hash, max_fee := some da.max_fee,
                         signature := da.signature, nonce := some da.nonce,
                         version := da.version },
          transaction := some (.deployAccount
            { contract_address_salt := some da.contract_address_salt,
              class_hash := some da.class_hash,
              constructor_calldata := da.constructor_calldata }) } :=
  fun _ _ _ _ _ _ => ⟨rfl, rfl, rfl, rfl, rfl, rfl⟩

/-- Claim C6 counterexample: mapping a PENDING deploy-account receipt
leaves `contract_address` absent (`provider.rs` lines 642-664 emit
`None`), contradicting the claim that both pending and confirmed
DeployAccount receipts populate it. -/
theorem c6_pending_deploy_account_address_absent :
    (MaybePendingTransactionReceipt.pendingReceipt
        (.deployAccount c6PendingDeployAccount)).toProto.contract_address = none :=
  rfl

/-- Claim C6 (amended): `contract_address` is present exactly for Deploy
receipts (pending and confirmed) and for CONFIRMED DeployAccount
receipts, in which case it equals the input's contract address; it is
absent for pending DeployAccount receipts and for every Invoke, Declare
and L1Handler receipt. -/
theorem c6_contract_address_rule :
    ∀ (pi : PendingInvokeTransactionReceipt) (pl : PendingL1HandlerTransactionReceipt)
      (pdc : PendingDeclareTransactionReceipt) (pd : PendingDeployTransactionReceipt)
      (pda : PendingDeployAccountTransactionReceipt)
      (ci : InvokeTransactionReceipt) (cl : L1HandlerTransactionReceipt)
      (cdc : DeclareTransactionReceipt) (cd : DeployTransactionReceipt)
      (cda : DeployAccountTransactionReceipt),
    (MaybePendingTransactionReceipt.pendingReceipt (.invoke pi)).toProto.contract_address
      = none
    ∧ (MaybePendingTransactionReceipt.pendingReceipt (.l1Handler pl)).toProto.contract_address
      = none
    ∧ (MaybePendingTransactionReceipt.pendingReceipt (.declare pdc)).toProto.contract_address
      = none
    ∧ (MaybePendingTransactionReceipt.pendingReceipt (.deploy pd)).toProto.contract_address
      = some pd.contract_address
    ∧ (MaybePendingTransactionReceipt.pendingReceipt (.deployAccount pda)).toProto.contract_address
      = none
    ∧ (MaybePendingTransactionReceipt.receipt (.invoke ci)).toProto.contract_address
      = none
    ∧ (MaybePendingTransactionReceipt.receipt (.l1Handler cl)).toProto.contract_address
      = none
    ∧ (MaybePendingTransactionReceipt.receipt (.declare cdc)).toProto.contract_address
      = none
    ∧ (MaybePendingTransactionReceipt.receipt (.deploy cd)).toProto.contract_address
      = some cd.contract_address
    ∧ (MaybePendingTransactionReceipt.receipt (.deployAccount cda)).toProto.contract_address
      = some cda.contract_address :=
  fun _ _ _ _ _ _ _ _ _ _ =>
    ⟨rfl, rfl, rfl, rfl, rfl, rfl, rfl, rfl, rfl, rfl⟩

/-- Claim C7: every receipt mapping, across all pending and confirmed
shapes of all five kinds, emits transaction index 0 (the backend
reports no position, and none of the mappings synthesizes one). -/
theorem c7_transaction_index_always_zero :
    ∀ r : MaybePendingTransactionReceipt, r.toProto.transaction_index = 0 := by
  intro r
  cases r with
  | pendingReceipt p => cases p <;> rfl
  | receipt c => cases c <;> rfl

/-- Claim C8: `is_block_not_found` holds exactly on the `BlockNotFound`
variant; classifying a backend error maps the `BlockNotFound` RPC code
to that variant and wraps every other backend error opaquely in the
`Provider` variant, on which `is_block_not_found` is false. -/
theorem c8_block_not_found_classification :
    (∀ e : HttpProviderError,
      e.isBlockNotFound = true ↔ e = HttpProviderError.blockNotFound)
    ∧ HttpProviderError.fromProviderError (.rpcError (.code .blockNotFound))
      = HttpProviderError.blockNotFound
    ∧ (∀ e : JsonRpcClientError, e ≠ .rpcError (.code .blockNotFound) →
        HttpProviderError.fromProviderError e = HttpProviderError.provider e
        ∧ (HttpProviderError.fromProviderError e).isBlockNotFound = false) := by
  refine ⟨?_, rfl, ?_⟩
  · intro e
    cases e <;> simp [HttpProviderError.isBlockNotFound]
  · intro e he
    cases e with
    | jsonError => exact ⟨rfl, rfl⟩
    | transportError => exact ⟨rfl, rfl⟩
    | rpcError re =>
      cases re with
      | unknown c m => exact ⟨rfl, rfl⟩
      | code c =>
        cases c <;> first
          | exact ⟨rfl, rfl⟩
          | exact absurd rfl he

/-- Witness for claim C8 at the concrete backend error `JsonError`. -/
theorem c8_block_not_found_classification_witness :
    HttpProviderError.fromProviderError JsonRpcClientError.jsonError
      = HttpProviderError.provider JsonRpcClientError.jsonError
    ∧ (HttpProviderError.fromProviderError JsonRpcClientError.jsonError).isBlockNotFound
      = false :=
  c8_block_not_found_classification.2.2 JsonRpcClientError.jsonError (by decide)

/-- Claim C9: after the cancellation signal fires, the shutdown of
`Server::start` is strictly ordered — the listener's serve future
completes (`serveStopped`) before the health reporter is cancelled
(`cancelIssued`) and joined (`reporterJoined`), and `start` returns only
after the join completes (the join event is the last of the trace); a
reflection-build error, a transport error, or a task-join error aborts
`start` with the `ReflectionServer`, `Transport`, or `Task` variant
respectively. -/
theorem c9_shutdown_ordering :
    ∀ env : StartEnv,
    (∀ e, env.reflectionBuild = .error e →
        serverStart env
          = (.error (.reflectionServer e), [ServerEvent.reporterSpawned]))
    ∧ (∀ e, env.reflectionBuild = .ok () → env.serveWithShutdown = .error e →
        (serverStart env).1 = .error (.transport e))
    ∧ (env.reflectionBuild = .ok () → env.serveWithShutdown = .ok () →
        (serverStart env).2
          = [ServerEvent.reporterSpawned, ServerEvent.reflectionBuilt,
             ServerEvent.serveStopped, ServerEvent.cancelIssued,
             ServerEvent.reporterJoined]
        ∧ (∀ e, env.reporterJoin = .error e → (serverStart env).1 = .error (.task e))
        ∧ (env.reporterJoin = .ok () → (serverStart env).1 = .ok ())) := by
  intro env
  obtain ⟨rb, sv, rj⟩ := env
  refine ⟨?_, ?_, ?_⟩
  · intro e he
    cases rb with
    | error x =>
      injection he with hx
      subst hx
      rfl
    | ok u => exact Except.noConfusion he
  · intro e hrb hsv
    subst hrb
    subst hsv
    rfl
  · intro hrb hsv
    subst hrb
    subst hsv
    cases rj with
    | error x =>
      refine ⟨rfl, ?_, ?_⟩
      · intro e he
        injection he with hx
        subst hx
        rfl
      · intro hok
        exact Except.noConfusion hok
    | ok u =>
      cases u
      refine ⟨rfl, ?_, ?_⟩
      · intro e he
        exact Except.noConfusion he
      · intro hok
        rfl

/-- Witness for claim C9: in the all-success environment the trace is the
ordered shutdown sequence and `start` returns ok. -/
theorem c9_shutdown_ordering_witness :
    (serverStart c9AllOk).2
      = [ServerEvent.reporterSpawned, ServerEvent.reflectionBuilt,
         ServerEvent.serveStopped, ServerEvent.cancelIssued,
         ServerEvent.reporterJoined]
    ∧ (serverStart c9AllOk).1 = .ok () :=
  ⟨((c9_shutdown_ordering c9AllOk).2.2 rfl rfl).1,
   ((c9_shutdown_ordering c9AllOk).2.2 rfl rfl).2.2 rfl⟩

/-- Claim C10: both Invoke variants are emitted with `meta.version`
hard-coded to 0 — an `InvokeV1` input yields version 0, not 1, even
though its max fee, signature and nonce are taken from the input. -/
theorem c10_invoke_meta_version_zero :
    ∀ (i0 : InvokeTransactionV0) (i1 : InvokeTransactionV1),
    (InvokeTransaction.v0 i0).toProto.meta
      = some { hash := some i0.transaction_hash, max_fee := some i0.max_fee,
               signature := i0.signature, nonce := some i0.nonce, version := 0 }
    ∧ (InvokeTransaction.v1 i1).toProto.meta
      = some { hash := some i1.transaction_hash, max_fee := some i1.max_fee,
               signature := i1.signature, nonce := some i1.nonce, version := 0 } :=
  fun _ _ => ⟨rfl, rfl⟩
